import Mathlib

/-!
Verification of the YouTube-intelligence MCP server (shallow embedding).

Pure functions of the Python source are translated into Lean definitions;
external collaborators (the YouTube Data API client, the `isodate` and
`datetime` parsers, `psutil`) are modelled as explicit parameters or as
small executable models used only to evaluate concrete inputs.  Machine
integers are modelled by `Nat` (counts are non-negative and far from any
overflow boundary); Python float division is modelled by `ℚ`.
-/

/-! ## String helpers

Python's `pat in s` substring test and f-string concatenation, modelled on
the character lists underlying `String`. -/

/-- `leadsWith pat l` is true when `pat` is an initial segment of `l`. -/
def leadsWith : List Char → List Char → Bool
  | [], _ => true
  | _ :: _, [] => false
  | p :: ps, c :: cs => p = c && leadsWith ps cs

/-- `occursIn pat l` is true when `pat` occurs contiguously inside `l`;
this is Python's `pat in l` on strings. -/
def occursIn (pat : List Char) : List Char → Bool
  | [] => leadsWith pat []
  | c :: cs => leadsWith pat (c :: cs) || occursIn pat cs

/-- Python `pat in s` for strings. -/
def strOccurs (pat s : String) : Bool :=
  occursIn pat.data s.data

/-! ## Data model (`models/youtube_models.py`) -/

/-- `VideoCategory` enum from `models/youtube_models.py`. -/
inductive VideoCategory where
  | education
  | entertainment
  | technology
  | gaming
  | music
  | news
  | sports
  | other
deriving DecidableEq, Repr

/-- `VideoStats` model: video statistics and metrics. -/
structure VideoStats where
  view_count : Nat := 0
  like_count : Nat := 0
  comment_count : Nat := 0
  duration_seconds : Nat := 0
deriving DecidableEq, Repr

/-- The `engagement_rate` property of `VideoStats`:
`(like_count + comment_count) / view_count`, `0.0` when `view_count = 0`. -/
def engagement_rate (s : VideoStats) : ℚ :=
  if s.view_count = 0 then 0
  else ((s.like_count : ℚ) + (s.comment_count : ℚ)) / (s.view_count : ℚ)

/-- `VideoData` model.  `published_at` holds the normalized timestamp
string (the external `datetime` value is represented by the ISO string it
was parsed from, with `Z` already replaced by `+00:00`). -/
structure VideoData where
  video_id : String
  title : String
  description : String
  channel_id : String
  channel_title : String
  published_at : String
  duration : String
  category : VideoCategory := VideoCategory.other
  stats : VideoStats
  tags : List String := []
  thumbnail_url : Option String := none
deriving DecidableEq, Repr

/-! ## Category inference (`services/youtube_service.py`, `_categorize_video`) -/

/-- Python `any(word in content for word in kws)`. -/
def keywordHit (kws : List String) (content : String) : Bool :=
  kws.any (fun w => strOccurs w content)

def educationKeywords : List String := ["tutorial", "learn", "education", "course"]
def technologyKeywords : List String := ["tech", "programming", "software", "ai"]
def gamingKeywords : List String := ["game", "gaming", "play"]
def musicKeywords : List String := ["music", "song", "album"]
def newsKeywords : List String := ["news", "breaking", "report"]
def sportsKeywords : List String := ["sport", "football", "basketball"]

/-- Python `str.lower()` (per-character lowering; the keyword sets and
provider text are ASCII, where this agrees with Python). -/
def strLower (s : String) : String :=
  ⟨s.data.map Char.toLower⟩

/-- `content = (title + ' ' + description).lower()`. -/
def categoryContent (title description : String) : String :=
  strLower (title ++ (" ") ++ description)

/-- `_categorize_video`: keyword cascade over the lower-cased
concatenation of title and description. -/
def categorize_video (title description : String) : VideoCategory :=
  let content := categoryContent title description
  if keywordHit educationKeywords content then VideoCategory.education
  else if keywordHit technologyKeywords content then VideoCategory.technology
  else if keywordHit gamingKeywords content then VideoCategory.gaming
  else if keywordHit musicKeywords content then VideoCategory.music
  else if keywordHit newsKeywords content then VideoCategory.news
  else if keywordHit sportsKeywords content then VideoCategory.sports
  else VideoCategory.other

/-! ## Competition level (`tools/market_analysis_tool.py`, `_analyze_market_data`) -/

/-- Number of distinct channel titles in a sample
(pandas `df['channel'].nunique()`). -/
def uniqueChannels (videos : List VideoData) : Nat :=
  (videos.map VideoData.channel_title).dedup.length

/-- The competition label of `_analyze_market_data`:
`"High" if unique_channels > 30 else "Medium" if unique_channels > 15 else "Low"`. -/
def competition_level (unique_channels : Nat) : String :=
  if unique_channels > 30 then "High"
  else if unique_channels > 15 then "Medium"
  else "Low"

/-! ## Duration and timestamp parsing

`isodate.parse_duration` and `datetime.fromisoformat` are external
libraries; the normalizer is therefore parametrized over a duration parser
`String → Option Nat` (`none` models a raised exception) and a timestamp
validity check.  Executable models of both, covering the integral-seconds
ISO-8601 fragment the provider emits, are given for evaluating concrete
inputs. -/

/-- Accumulate leading decimal digits; returns the value and the rest. -/
def readNatCore : Nat → List Char → Nat × List Char
  | acc, [] => (acc, [])
  | acc, c :: cs =>
      if c.isDigit then readNatCore (acc * 10 + (c.toNat - 48)) cs
      else (acc, c :: cs)

/-- Read at least one decimal digit. -/
def readNat : List Char → Option (Nat × List Char)
  | [] => none
  | c :: cs => if c.isDigit then some (readNatCore (c.toNat - 48) cs) else none

/-- Parse an alternating sequence of numbers and one-character unit
designators, e.g. `15M30S ↦ [(15, M), (30, S)]`.  Fuelled by the input
length. -/
def parsePairsAux : Nat → List Char → Option (List (Nat × Char))
  | _, [] => some []
  | 0, _ :: _ => none
  | fuel + 1, c :: cs =>
      match readNat (c :: cs) with
      | none => none
      | some (n, rest) =>
          match rest with
          | [] => none
          | u :: rest2 => (parsePairsAux fuel rest2).map (fun ps => (n, u) :: ps)

def parsePairs (l : List Char) : Option (List (Nat × Char)) :=
  parsePairsAux l.length l

/-- Seconds per date-part designator.  Year/month designators produce an
`isodate.Duration` on which `.total_seconds()` faults, so they count as
malformed here. -/
def dateUnitSeconds : Char → Option Nat
  | 'W' => some 604800
  | 'D' => some 86400
  | _ => none

def timeUnitSeconds : Char → Option Nat
  | 'H' => some 3600
  | 'M' => some 60
  | 'S' => some 1
  | _ => none

def sumPairs (unitVal : Char → Option Nat) : List (Nat × Char) → Option Nat
  | [] => some 0
  | (n, u) :: rest =>
      match unitVal u, sumPairs unitVal rest with
      | some v, some acc => some (n * v + acc)
      | _, _ => none

/-- Modelled from the external `isodate` library:
`int(isodate.parse_duration(s).total_seconds())` on the integral-seconds
ISO-8601 fragment (`PnW`, `PnD`, `PTnHnMnS` and combinations); `none`
models a raised parse (or attribute) error. -/
def parseISODuration (s : String) : Option Nat :=
  match s.data with
  | 'P' :: rest =>
      let dateChars := rest.takeWhile (fun c => c ≠ 'T')
      let restT := rest.dropWhile (fun c => c ≠ 'T')
      match restT with
      | [] =>
          match parsePairs dateChars with
          | some ps => if ps.isEmpty then none else sumPairs dateUnitSeconds ps
          | none => none
      | _ :: timeChars =>
          match parsePairs dateChars, parsePairs timeChars with
          | some dps, some tps =>
              if tps.isEmpty then none
              else
                match sumPairs dateUnitSeconds dps, sumPairs timeUnitSeconds tps with
                | some a, some b => some (a + b)
                | _, _ => none
          | _, _ => none
  | _ => none

/-- Modelled from the external `datetime.fromisoformat` on the
`YYYY-MM-DDTHH:MM:SS+00:00` fragment the normalizer produces after
replacing `Z` with `+00:00`. -/
def isoTimestampValid (s : String) : Bool :=
  match s.data with
  | [y1, y2, y3, y4, d1, mo1, mo2, d2, a1, a2, t1, h1, h2, c1, n1, n2, c2,
     s1, s2, p1, z1, z2, c3, z3, z4] =>
      ([y1, y2, y3, y4, mo1, mo2, a1, a2, h1, h2, n1, n2, s1, s2].all Char.isDigit)
        && d1 = '-' && d2 = '-' && t1 = 'T' && c1 = ':' && c2 = ':' && p1 = '+'
        && z1 = '0' && z2 = '0' && c3 = ':' && z3 = '0' && z4 = '0'
  | _ => false

/-- Replace the non-overlapping occurrences of `pat`, left to right
(Python `str.replace`), fuelled by the input length. -/
def replaceCore : Nat → List Char → List Char → List Char → List Char
  | _, _, _, [] => []
  | 0, _, _, l => l
  | fuel + 1, pat, repl, c :: cs =>
      if leadsWith pat (c :: cs) && !pat.isEmpty then
        repl ++ replaceCore fuel pat repl ((c :: cs).drop pat.length)
      else
        c :: replaceCore fuel pat repl cs

/-- Python `s.replace(pat, repl)` (for non-empty `pat`). -/
def strReplace (s pat repl : String) : String :=
  ⟨replaceCore s.data.length pat.data repl.data s.data⟩

/-! ## Record normalizer (`services/youtube_service.py`) -/

/-- One raw provider record, restricted to the fields `_parse_video_item`
reads.  `none` models an absent key; numeric statistics are modelled as
already-converted naturals (`statistics.get(..., 0)` defaults to 0). -/
structure RawItem where
  id : String
  title : Option String
  description : Option String
  channelId : Option String
  channelTitle : Option String
  publishedAt : Option String
  viewCount : Option Nat := none
  likeCount : Option Nat := none
  commentCount : Option Nat := none
  duration : Option String := none
  tags : List String := []
  thumbnailUrl : Option String := none
deriving DecidableEq, Repr

/-- `_parse_video_item`: any single-record failure (malformed duration,
missing required key, malformed timestamp) is caught by the enclosing
`try/except` and yields `None`. -/
def parse_video_item (parseDur : String → Option Nat) (tsValid : String → Bool)
    (item : RawItem) : Option VideoData :=
  let durationStr := item.duration.getD ("PT0S")
  match parseDur durationStr with
  | none => none
  | some durationSeconds =>
      let stats : VideoStats :=
        { view_count := item.viewCount.getD 0
          like_count := item.likeCount.getD 0
          comment_count := item.commentCount.getD 0
          duration_seconds := durationSeconds }
      let category := categorize_video (item.title.getD ("")) (item.description.getD (""))
      match item.publishedAt with
      | none => none
      | some ts0 =>
          let ts := strReplace ts0 ("Z") ("+00:00")
          if tsValid ts then
            match item.title, item.channelId, item.channelTitle with
            | some title, some chId, some chTitle =>
                some { video_id := item.id
                       title := title
                       description := item.description.getD ("")
                       channel_id := chId
                       channel_title := chTitle
                       published_at := ts
                       duration := durationStr
                       category := category
                       stats := stats
                       tags := item.tags
                       thumbnail_url := item.thumbnailUrl }
            | _, _, _ => none
          else none

/-- `_fetch_video_batch`: parse every item of the API response, keeping
only the records that normalize; `none` models the detail call itself
raising, which the `except` turns into an empty batch. -/
def fetch_video_batch (parseDur : String → Option Nat) (tsValid : String → Bool)
    (response : Option (List RawItem)) : List VideoData :=
  match response with
  | none => []
  | some items => items.filterMap (parse_video_item parseDur tsValid)

/-- `range(0, len(ids), 50)` slicing, fuelled by the list length. -/
def chunksAux {α : Type} : Nat → List α → List (List α)
  | _, [] => []
  | 0, l => [l]
  | fuel + 1, c :: cs => ((c :: cs).take 50) :: chunksAux fuel ((c :: cs).drop 50)

def chunksOf50 {α : Type} (l : List α) : List (List α) :=
  chunksAux l.length l

/-- `_get_video_details`: batch the ids in groups of 50 and concatenate
the fetched batches.  `resp` models the external `videos().list` call per
batch of ids. -/
def get_video_details (parseDur : String → Option Nat) (tsValid : String → Bool)
    (resp : List String → Option (List RawItem)) (video_ids : List String) :
    List VideoData :=
  if video_ids.isEmpty then []
  else ((chunksOf50 video_ids).map
          (fun batch => fetch_video_batch parseDur tsValid (resp batch))).flatten

/-- `min(query.max_results, 50)` — the `maxResults` actually sent to the
provider (`search_videos`, line 43: the API limit). -/
def apiMaxResults (requested : Nat) : Nat :=
  min requested 50

/-! ## Market analysis tool (`tools/market_analysis_tool.py`) -/

/-- Arguments of `analyze_market`; `none` models an absent key, read with
`arguments.get(..., default)`. -/
structure MarketArgs where
  topic : String
  timeframe_days : Option Nat := none
  sample_size : Option Nat := none
deriving Repr

/-- `min(arguments.get("sample_size", 50), 100)`. -/
def marketSampleSize (args : MarketArgs) : Nat :=
  min (args.sample_size.getD 50) 100

/-- One observed behavior of the external search API for a given request:
the video ids returned by `search().list` and the per-batch detail
responses of `videos().list`. -/
structure ProviderSearch where
  searchIds : List String
  totalResults : Nat := 0
  detailResp : List String → Option (List RawItem)

/-- Outcome of `self.youtube_service.search_videos(...)` as seen by a
tool handler: either the provider interaction, or a raised error
(`HttpError` and unexpected errors are re-raised by the service). -/
inductive FetchOutcome where
  | ok (pb : ProviderSearch)
  | raised (e : String)

/-- The normalized video list a search produces
(`search_videos` → `_get_video_details`). -/
def search_videos_list (parseDur : String → Option Nat) (tsValid : String → Bool)
    (pb : ProviderSearch) : List VideoData :=
  get_video_details parseDur tsValid pb.detailResp pb.searchIds

/-- The claim-relevant projection of `_analyze_market_data`'s
`market_overview` (the remaining aggregates — means, rankings, TextBlob
sentiment, insights — are not constrained by any claim and are computed
by external pandas/TextBlob code). -/
structure MarketOverviewPart where
  unique_creators : Nat
  competition_level : String
deriving DecidableEq, Repr

/-- Result dict of `MarketAnalysisTool.call`, projected to the
claim-relevant observables. -/
inductive MarketCallResult where
  | failed (message : String) (error : Option String)
  | analyzed (topic : String) (timeframe_days : Nat) (videos_analyzed : Nat)
      (overview : MarketOverviewPart)
deriving DecidableEq, Repr

/-- `result.get("success", False)`. -/
def MarketCallResult.successFlag : MarketCallResult → Bool
  | .failed _ _ => false
  | .analyzed _ _ _ _ => true

/-- `result.get("message", None)`. -/
def MarketCallResult.message : MarketCallResult → Option String
  | .failed m _ => some m
  | .analyzed _ _ _ _ => none

/-- `result.get("videos_analyzed", 0)`. -/
def MarketCallResult.videosAnalyzed : MarketCallResult → Nat
  | .failed _ _ => 0
  | .analyzed _ _ n _ => n

/-- `MarketAnalysisTool.call`: clamp the sample size, search, report a
failure naming the topic when no videos come back, otherwise analyze;
a raised fetch error is caught and turned into a failure result. -/
def market_call (parseDur : String → Option Nat) (tsValid : String → Bool)
    (fetch : FetchOutcome) (args : MarketArgs) : MarketCallResult :=
  match fetch with
  | .raised e => .failed ("Failed to analyze market") (some e)
  | .ok pb =>
      let videos := search_videos_list parseDur tsValid pb
      if videos.isEmpty then
        .failed (("No videos found for topic: ") ++ args.topic) none
      else
        .analyzed args.topic (args.timeframe_days.getD 30) videos.length
          { unique_creators := uniqueChannels videos
            competition_level := competition_level (uniqueChannels videos) }

/-! ## MCP dispatch layer (`mcp_server.py`) -/

structure TextContent where
  type : String
  text : String
deriving DecidableEq, Repr

structure ToolDescr where
  name : String
  description : String
deriving DecidableEq, Repr

/-- Keys of the `youtube_tools` dict, in insertion order. -/
def youtube_tool_names : List String :=
  ["search_videos", "analyze_market", "system_status"]

/-- The three registered descriptors (name and description of each tool
instance). -/
def youtube_tool_descrs : List ToolDescr :=
  [⟨"search_videos", "Search YouTube videos with detailed analysis and insights"⟩,
   ⟨"analyze_market", "Analyze YouTube market trends and competition for specific topics"⟩,
   ⟨"system_status", "Get YouTube Intelligence MCP Server system status and health metrics"⟩]

/-- `list_tools`: empty before startup completes, all three descriptors
afterwards. -/
def list_tools (serverReady : Bool) : List ToolDescr :=
  if serverReady then youtube_tool_descrs else []

/-- The success/message projection of a handler's result dict that
`call_tool` reads. -/
structure ToolResult where
  success : Bool := false
  message : Option String := none
deriving DecidableEq, Repr

/-- What awaiting `tool_instance.call(arguments)` can do: return a result
dict, or raise. -/
inductive HandlerOutcome where
  | ok (r : ToolResult)
  | exc (e : String)

/-- `f"Tool '{name}' not found. Available tools: {list(youtube_tools.keys())}"`. -/
def unknown_tool_message (name : String) : String :=
  ("Tool \x27") ++ name ++
    ("\x27 not found. Available tools: [\x27search_videos\x27, \x27analyze_market\x27, \x27system_status\x27]")

/-- `call_tool`: the dispatch boundary.  The enclosing `try/except` means
no branch raises: a handler exception becomes an `Error executing tool`
text, a structured failure becomes a `Tool execution failed:` text. -/
def call_tool (serverReady : Bool) (handlers : String → HandlerOutcome)
    (fmt : String → ToolResult → String) (name : String) : List TextContent :=
  if serverReady = false then
    [⟨"text", "Error: Server not yet initialized. Please wait for initialization to complete."⟩]
  else if name ∈ youtube_tool_names then
    match handlers name with
    | .exc e => [⟨"text", ("Error executing tool \x27") ++ name ++ ("\x27: ") ++ e⟩]
    | .ok r =>
        if r.success then [⟨"text", fmt name r⟩]
        else [⟨"text", ("Tool execution failed: ") ++ (r.message.getD ("Unknown error"))⟩]
  else
    [⟨"text", ("Error: ") ++ unknown_tool_message name⟩]

/-! ## System status tool (`tools/system_status_tool.py`, `config.py`) -/

/-- The environment-derived part of `Config` (values of `os.getenv`);
the remaining `Config` attributes are source constants, embedded as
constants below. -/
structure EnvConfig where
  youtube_api_key : Option String
  firebase_project_id : Option String
  anthropic_api_key : Option String
  output_dir : String
deriving DecidableEq, Repr

/-- Python truthiness of an optional string (`bool(None)` and `bool("")`
are `False`). -/
def pyTruthy : Option String → Bool
  | none => false
  | some s => !(s.data.isEmpty)

def MCP_SERVER_NAME : String := "youtube-intelligence"
def MCP_SERVER_VERSION : String := "1.0.0"
def MAX_VIDEOS_PER_SEARCH : Nat := 50

/-- The `configuration` sub-dict built by `SystemStatusTool.call`. -/
structure StatusConfigBlock where
  youtube_api_configured : Bool
  firebase_configured : Bool
  claude_api_configured : Bool
  output_directory : String
  max_videos_per_search : Nat
deriving DecidableEq, Repr

/-- `_check_api_status()`. -/
structure ApiStatusBlock where
  youtube_api : String
  firebase : String
  claude_api : String
deriving DecidableEq, Repr

/-- Outcome of `_get_system_metrics()` (external `psutil` observations, or
its degraded `{error: ...}` sub-object). -/
inductive MetricsBlock where
  | collected (cpu_percent memory_percent disk_usage_percent : ℚ)
      (process_count network_connections : Nat)
  | unavailable (error : String)
deriving DecidableEq, Repr

def check_api_status (cfg : EnvConfig) : ApiStatusBlock :=
  { youtube_api := if pyTruthy cfg.youtube_api_key then ("configured") else ("not_configured")
    firebase := if pyTruthy cfg.firebase_project_id then ("configured") else ("not_configured")
    claude_api := if pyTruthy cfg.anthropic_api_key then ("configured") else ("not_configured") }

/-- The `status` dict of `SystemStatusTool.call`. -/
structure SystemStatus where
  server_name : String
  version : String
  timestamp : String
  status : String
  uptime_seconds : ℚ
  configuration : StatusConfigBlock
  system_metrics : Option MetricsBlock
  api_status : Option ApiStatusBlock
deriving DecidableEq, Repr

structure StatusCallResult where
  success : Bool
  status : SystemStatus
deriving DecidableEq, Repr

/-- `SystemStatusTool.call`.  `timestamp` (from `datetime.utcnow`),
`uptime` (from `psutil.boot_time`) and `metrics` are the external
observations of this call. -/
def system_status_call (cfg : EnvConfig) (timestamp : String) (uptime : ℚ)
    (metrics : MetricsBlock) (include_detailed : Bool) : StatusCallResult :=
  { success := true
    status :=
      { server_name := MCP_SERVER_NAME
        version := MCP_SERVER_VERSION
        timestamp := timestamp
        status := "healthy"
        uptime_seconds := uptime
        configuration :=
          { youtube_api_configured := pyTruthy cfg.youtube_api_key
            firebase_configured := pyTruthy cfg.firebase_project_id
            claude_api_configured := pyTruthy cfg.anthropic_api_key
            output_directory := cfg.output_dir
            max_videos_per_search := MAX_VIDEOS_PER_SEARCH }
        system_metrics := if include_detailed then some metrics else none
        api_status := if include_detailed then some (check_api_status cfg) else none } }

/-! ## Concrete fixtures used to evaluate the definitions -/

/-- A handler map where every tool returns a plain success. -/
def demoHandlers : String → HandlerOutcome :=
  fun _ => HandlerOutcome.ok ⟨true, none⟩

/-- A handler map where every tool raises. -/
def boomHandlers : String → HandlerOutcome :=
  fun _ => HandlerOutcome.exc ("boom")

/-- A handler map where every tool returns a structured failure. -/
def failHandlers : String → HandlerOutcome :=
  fun _ => HandlerOutcome.ok ⟨false, some ("Failed to analyze market")⟩

/-- A formatter standing in for `format_tool_response`. -/
def demoFmt : String → ToolResult → String :=
  fun _ _ => ("formatted")

/-- A raw record that normalizes fully. -/
def goodRawItem : RawItem :=
  { id := "good1"
    title := some ("Epic game tutorial")
    description := some ("a course")
    channelId := some ("ch1")
    channelTitle := some ("Channel One")
    publishedAt := some ("2024-01-02T03:04:05Z")
    viewCount := some 1000
    likeCount := some 50
    commentCount := some 10
    duration := some ("PT15M30S") }

/-- A raw record whose duration string is malformed. -/
def badRawItem : RawItem :=
  { id := "bad1"
    title := some ("game video")
    description := some ("")
    channelId := some ("ch2")
    channelTitle := some ("Channel Two")
    publishedAt := some ("2024-01-02T03:04:05Z")
    viewCount := some 5
    likeCount := some 1
    commentCount := some 0
    duration := some ("not a duration") }

/-- A search interaction that returns no videos. -/
def emptyProvider : ProviderSearch :=
  ⟨[], 0, fun _ => some []⟩

def demoMarketArgs : MarketArgs :=
  ⟨"quantum computing", none, none⟩

/-- A search interaction returning two ids whose detail call answers with
at most one record per requested id. -/
def capProvider : ProviderSearch :=
  ⟨["vid1", "vid2"], 2, fun ids => some ([goodRawItem].take ids.length)⟩

def capArgs : MarketArgs :=
  ⟨"ai", none, some 75⟩

def metricsDemo : MetricsBlock :=
  MetricsBlock.unavailable ("Unable to retrieve system metrics")

/-- Two environments agreeing on every credential value and on the
max-search-size, differing only in the output directory. -/
def cfgOutA : EnvConfig :=
  ⟨some ("yt-key-1"), some ("fb-proj"), some ("cl-key"), ("/srv/a/output")⟩

def cfgOutB : EnvConfig :=
  ⟨some ("yt-key-1"), some ("fb-proj"), some ("cl-key"), ("/srv/b/output")⟩

/-- Two environments with entirely different credential values of equal
truthiness. -/
def cfgSecretA : EnvConfig :=
  ⟨some ("yt-key-secret-AAAA"), some ("firebase-project-a"), some ("sk-ant-aaaa"), ("/srv/output")⟩

def cfgSecretB : EnvConfig :=
  ⟨some ("other-value-BBBB"), some ("firebase-project-b"), some ("sk-ant-bbbb"), ("/srv/output")⟩

/-! ## Supporting lemmas -/

theorem leadsWith_self (l : List Char) : leadsWith l l = true := by
  induction l with
  | nil => rfl
  | cons c cs ih => simp [leadsWith, ih]

theorem occursIn_self (l : List Char) : occursIn l l = true := by
  cases l with
  | nil => rfl
  | cons c cs => simp [occursIn, leadsWith_self]

theorem occursIn_append_left (pat l₂ : List Char) (l₁ : List Char)
    (h : occursIn pat l₂ = true) : occursIn pat (l₁ ++ l₂) = true := by
  induction l₁ with
  | nil => simpa using h
  | cons c cs ih =>
      simp only [List.cons_append, occursIn, Bool.or_eq_true]
      exact Or.inr ih

theorem occursIn_suffix (pat l₁ : List Char) :
    occursIn pat (l₁ ++ pat) = true :=
  occursIn_append_left pat pat l₁ (occursIn_self pat)

theorem string_data_append (a b : String) : (a ++ b).data = a.data ++ b.data :=
  rfl

theorem strOccurs_append_right (pat s t : String) (h : strOccurs pat t = true) :
    strOccurs pat (s ++ t) = true := by
  unfold strOccurs at *
  rw [string_data_append]
  exact occursIn_append_left _ _ _ h

theorem strOccurs_self_suffix (s t : String) : strOccurs t (s ++ t) = true := by
  unfold strOccurs
  rw [string_data_append]
  exact occursIn_suffix _ _

theorem fetch_video_batch_length_le (parseDur : String → Option Nat)
    (tsValid : String → Bool) (response : Option (List RawItem)) :
    (fetch_video_batch parseDur tsValid response).length ≤
      (response.getD []).length := by
  cases response with
  | none => simp [fetch_video_batch]
  | some items =>
      simpa [fetch_video_batch] using
        List.length_filterMap_le (parse_video_item parseDur tsValid) items

theorem chunksAux_nil {α : Type} (fuel : Nat) :
    chunksAux fuel ([] : List α) = [] := by
  cases fuel <;> rfl

theorem chunksOf50_small {α : Type} (l : List α) (h0 : l ≠ []) (h : l.length ≤ 50) :
    chunksOf50 l = [l] := by
  cases l with
  | nil => exact absurd rfl h0
  | cons c cs =>
      unfold chunksOf50
      simp only [List.length_cons, chunksAux]
      rw [List.take_of_length_le (by simpa using h),
          List.drop_eq_nil_of_le (by simpa using h), chunksAux_nil]

/-! ## Claim theorems -/

/-- C1: for every video record, the engagement rate equals
`(like_count + comment_count) / view_count` when `view_count > 0` and is
exactly `0` when `view_count = 0`; `engagement_rate` is a total function,
so the computation never faults on division by zero. -/
theorem C1_engagement_rate_spec (s : VideoStats) :
    (s.view_count = 0 → engagement_rate s = 0) ∧
    (0 < s.view_count →
      engagement_rate s =
        ((s.like_count : ℚ) + (s.comment_count : ℚ)) / (s.view_count : ℚ)) := by
  constructor
  · intro h
    simp [engagement_rate, h]
  · intro h
    rw [engagement_rate, if_neg (Nat.pos_iff_ne_zero.mp h)]

theorem C1_engagement_rate_spec_witness :
    engagement_rate ⟨0, 5, 7, 0⟩ = 0 ∧
    engagement_rate ⟨1000, 50, 10, 0⟩ = ((50 : ℚ) + (10 : ℚ)) / (1000 : ℚ) :=
  ⟨(C1_engagement_rate_spec ⟨0, 5, 7, 0⟩).1 rfl,
   (C1_engagement_rate_spec ⟨1000, 50, 10, 0⟩).2 (by norm_num)⟩

/-- C4: the competition level is exactly the three-tier function of the
unique-channel count: more than 30 gives `"High"`, more than 15 and at
most 30 gives `"Medium"`, at most 15 gives `"Low"`; in particular
31 ↦ "High", 30 ↦ "Medium", 15 ↦ "Low". -/
theorem C4_competition_level_spec (n : Nat) :
    (30 < n → competition_level n = "High") ∧
    (15 < n → n ≤ 30 → competition_level n = "Medium") ∧
    (n ≤ 15 → competition_level n = "Low") ∧
    competition_level 31 = "High" ∧
    competition_level 30 = "Medium" ∧
    competition_level 15 = "Low" := by
  refine ⟨?_, ?_, ?_, rfl, rfl, rfl⟩
  · intro h
    unfold competition_level
    rw [if_pos h]
  · intro h1 h2
    unfold competition_level
    rw [if_neg (by omega), if_pos h1]
  · intro h
    unfold competition_level
    rw [if_neg (by omega), if_neg (by omega)]

theorem C4_competition_level_spec_witness :
    competition_level 31 = "High" ∧
    competition_level 30 = "Medium" ∧
    competition_level 15 = "Low" :=
  ⟨(C4_competition_level_spec 31).1 (by decide),
   (C4_competition_level_spec 30).2.1 (by decide) (by decide),
   (C4_competition_level_spec 15).2.2.1 (by decide)⟩

/-- C5: category inference tests the keyword sets on the lower-cased
concatenation of title and description in the fixed order
education → technology → gaming → music → news → sports, first match
winning, no match giving `other`; content containing both "tutorial" and
"game" resolves to `education`. -/
theorem C5_categorize_priority (title description : String) :
    (keywordHit educationKeywords (categoryContent title description) = true →
      categorize_video title description = VideoCategory.education) ∧
    (keywordHit educationKeywords (categoryContent title description) = false →
      keywordHit technologyKeywords (categoryContent title description) = true →
      categorize_video title description = VideoCategory.technology) ∧
    (keywordHit educationKeywords (categoryContent title description) = false →
      keywordHit technologyKeywords (categoryContent title description) = false →
      keywordHit gamingKeywords (categoryContent title description) = true →
      categorize_video title description = VideoCategory.gaming) ∧
    (keywordHit educationKeywords (categoryContent title description) = false →
      keywordHit technologyKeywords (categoryContent title description) = false →
      keywordHit gamingKeywords (categoryContent title description) = false →
      keywordHit musicKeywords (categoryContent title description) = true →
      categorize_video title description = VideoCategory.music) ∧
    (keywordHit educationKeywords (categoryContent title description) = false →
      keywordHit technologyKeywords (categoryContent title description) = false →
      keywordHit gamingKeywords (categoryContent title description) = false →
      keywordHit musicKeywords (categoryContent title description) = false →
      keywordHit newsKeywords (categoryContent title description) = true →
      categorize_video title description = VideoCategory.news) ∧
    (keywordHit educationKeywords (categoryContent title description) = false →
      keywordHit technologyKeywords (categoryContent title description) = false →
      keywordHit gamingKeywords (categoryContent title description) = false →
      keywordHit musicKeywords (categoryContent title description) = false →
      keywordHit newsKeywords (categoryContent title description) = false →
      keywordHit sportsKeywords (categoryContent title description) = true →
      categorize_video title description = VideoCategory.sports) ∧
    (keywordHit educationKeywords (categoryContent title description) = false →
      keywordHit technologyKeywords (categoryContent title description) = false →
      keywordHit gamingKeywords (categoryContent title description) = false →
      keywordHit musicKeywords (categoryContent title description) = false →
      keywordHit newsKeywords (categoryContent title description) = false →
      keywordHit sportsKeywords (categoryContent title description) = false →
      categorize_video title description = VideoCategory.other) ∧
    categorize_video ("Epic game tutorial") ("") = VideoCategory.education := by
  refine ⟨?_, ?_, ?_, ?_, ?_, ?_, ?_, by decide⟩ <;>
    · intros
      simp_all [categorize_video]

theorem C5_categorize_priority_witness :
    categorize_video ("Epic game tutorial") ("") = VideoCategory.education ∧
    categorize_video ("chess opening ideas") ("") = VideoCategory.other :=
  ⟨(C5_categorize_priority ("Epic game tutorial") ("")).1 (by decide),
   (C5_categorize_priority ("chess opening ideas") ("")).2.2.2.2.2.2.1
     (by decide) (by decide) (by decide) (by decide) (by decide) (by decide)⟩

/-- C7: `list_tools` before initialization completes returns the empty
sequence, and after initialization returns exactly the 3 registered
descriptors named `search_videos`, `analyze_market`, `system_status`. -/
theorem C7_list_tools_spec :
    list_tools false = [] ∧
    list_tools true = youtube_tool_descrs ∧
    (list_tools true).map ToolDescr.name =
      ["search_videos", "analyze_market", "system_status"] ∧
    (list_tools true).length = 3 :=
  ⟨rfl, rfl, rfl, rfl⟩

theorem get_video_details_length_le (parseDur : String → Option Nat)
    (tsValid : String → Bool) (resp : List String → Option (List RawItem))
    (ids : List String) (hids : ids.length ≤ 50)
    (hresp : ∀ b, ((resp b).getD []).length ≤ b.length) :
    (get_video_details parseDur tsValid resp ids).length ≤ ids.length := by
  by_cases hnil : ids.isEmpty = true
  · simp [get_video_details, hnil]
  · have h0 : ids ≠ [] := by
      cases ids with
      | nil => exact absurd rfl hnil
      | cons c cs => exact List.cons_ne_nil c cs
    unfold get_video_details
    rw [if_neg hnil, chunksOf50_small ids h0 hids]
    simp only [List.map_cons, List.map_nil, List.flatten_cons, List.flatten_nil,
      List.append_nil]
    exact le_trans (fetch_video_batch_length_le _ _ _) (hresp ids)

/-- C2: invoking a tool name absent from the registry on an initialized
server returns a normal failure text (no exception) whose message contains
each of the 3 known tool names. -/
theorem C2_unknown_tool_spec (handlers : String → HandlerOutcome)
    (fmt : String → ToolResult → String) (name : String)
    (h : name ∉ youtube_tool_names) :
    call_tool true handlers fmt name =
      [⟨"text", ("Error: ") ++ unknown_tool_message name⟩] ∧
    strOccurs ("search_videos") (("Error: ") ++ unknown_tool_message name) = true ∧
    strOccurs ("analyze_market") (("Error: ") ++ unknown_tool_message name) = true ∧
    strOccurs ("system_status") (("Error: ") ++ unknown_tool_message name) = true := by
  refine ⟨?_, ?_, ?_, ?_⟩
  · unfold call_tool
    rw [if_neg (by simp), if_neg h]
  · unfold unknown_tool_message
    exact strOccurs_append_right _ _ _ (strOccurs_append_right _ _ _ rfl)
  · unfold unknown_tool_message
    exact strOccurs_append_right _ _ _ (strOccurs_append_right _ _ _ rfl)
  · unfold unknown_tool_message
    exact strOccurs_append_right _ _ _ (strOccurs_append_right _ _ _ rfl)

theorem C2_unknown_tool_spec_witness :
    call_tool true demoHandlers demoFmt ("bogus_tool") =
      [⟨"text", ("Error: ") ++ unknown_tool_message ("bogus_tool")⟩] ∧
    strOccurs ("search_videos") (("Error: ") ++ unknown_tool_message ("bogus_tool")) = true ∧
    strOccurs ("analyze_market") (("Error: ") ++ unknown_tool_message ("bogus_tool")) = true ∧
    strOccurs ("system_status") (("Error: ") ++ unknown_tool_message ("bogus_tool")) = true :=
  C2_unknown_tool_spec demoHandlers demoFmt ("bogus_tool") (by decide)

/-- C8: a market-analysis call whose provider search returns zero videos
yields a failure result (success = false) whose message contains the
requested topic, returned normally rather than thrown. -/
theorem C8_market_no_videos (parseDur : String → Option Nat)
    (tsValid : String → Bool) (pb : ProviderSearch) (args : MarketArgs)
    (h : search_videos_list parseDur tsValid pb = []) :
    market_call parseDur tsValid (FetchOutcome.ok pb) args =
      MarketCallResult.failed (("No videos found for topic: ") ++ args.topic) none ∧
    (market_call parseDur tsValid (FetchOutcome.ok pb) args).successFlag = false ∧
    strOccurs args.topic (("No videos found for topic: ") ++ args.topic) = true := by
  have hmc : market_call parseDur tsValid (FetchOutcome.ok pb) args =
      MarketCallResult.failed (("No videos found for topic: ") ++ args.topic) none := by
    simp [market_call, h]
  exact ⟨hmc, by rw [hmc]; rfl, strOccurs_self_suffix _ _⟩

theorem C8_market_no_videos_witness :
    market_call parseISODuration isoTimestampValid (FetchOutcome.ok emptyProvider)
        demoMarketArgs =
      MarketCallResult.failed
        (("No videos found for topic: ") ++ demoMarketArgs.topic) none ∧
    (market_call parseISODuration isoTimestampValid (FetchOutcome.ok emptyProvider)
        demoMarketArgs).successFlag = false ∧
    strOccurs demoMarketArgs.topic
      (("No videos found for topic: ") ++ demoMarketArgs.topic) = true :=
  C8_market_no_videos parseISODuration isoTimestampValid emptyProvider demoMarketArgs rfl

/-- C9 counterexample: two environments agreeing on the truthiness of all
three credentials and on the max-search-size nevertheless produce
different configuration blocks, because the block also reports the output
directory — so the block does not report *only* the three configured
flags plus the max-search-size. -/
theorem C9_counterexample :
    (system_status_call cfgOutA ("t0") 0 metricsDemo false).status.configuration.youtube_api_configured
      = (system_status_call cfgOutB ("t0") 0 metricsDemo false).status.configuration.youtube_api_configured ∧
    (system_status_call cfgOutA ("t0") 0 metricsDemo false).status.configuration.firebase_configured
      = (system_status_call cfgOutB ("t0") 0 metricsDemo false).status.configuration.firebase_configured ∧
    (system_status_call cfgOutA ("t0") 0 metricsDemo false).status.configuration.claude_api_configured
      = (system_status_call cfgOutB ("t0") 0 metricsDemo false).status.configuration.claude_api_configured ∧
    (system_status_call cfgOutA ("t0") 0 metricsDemo false).status.configuration.max_videos_per_search
      = (system_status_call cfgOutB ("t0") 0 metricsDemo false).status.configuration.max_videos_per_search ∧
    (system_status_call cfgOutA ("t0") 0 metricsDemo false).status.configuration
      ≠ (system_status_call cfgOutB ("t0") 0 metricsDemo false).status.configuration := by
  refine ⟨rfl, rfl, rfl, rfl, ?_⟩
  decide

/-- C9 (amended): the configuration block reports the boolean configured
flag of each of the three credentials, the max-search-size, and the
output-directory path — never a credential value: any two environments
whose credentials have the same truthiness (and that agree on the
non-credential output directory) produce identical status results, for
both the basic and the detailed call. -/
theorem C9_status_noninterference (a b : EnvConfig) (ts : String) (up : ℚ)
    (m : MetricsBlock) (inc : Bool)
    (h1 : pyTruthy a.youtube_api_key = pyTruthy b.youtube_api_key)
    (h2 : pyTruthy a.firebase_project_id = pyTruthy b.firebase_project_id)
    (h3 : pyTruthy a.anthropic_api_key = pyTruthy b.anthropic_api_key)
    (h4 : a.output_dir = b.output_dir) :
    system_status_call a ts up m inc = system_status_call b ts up m inc := by
  unfold system_status_call check_api_status
  rw [h1, h2, h3, h4]

theorem C9_status_noninterference_witness :
    system_status_call cfgSecretA ("t0") 0 metricsDemo true =
      system_status_call cfgSecretB ("t0") 0 metricsDemo true :=
  C9_status_noninterference cfgSecretA cfgSecretB ("t0") 0 metricsDemo true
    rfl rfl rfl rfl

/-- C3 counterexample: a raw record with the malformed duration string
`"not a duration"` does not normalize to a `VideoData` with
`duration_seconds = 0` — `_parse_video_item` returns `None` and the
record is dropped from the batch (the well-formed record is kept). -/
theorem C3_counterexample :
    parse_video_item parseISODuration isoTimestampValid badRawItem = none ∧
    (fetch_video_batch parseISODuration isoTimestampValid
        (some [goodRawItem, badRawItem])).map VideoData.video_id = [("good1")] :=
  ⟨rfl, by decide⟩

/-- C3 (amended): a raw record whose duration string is malformed is
dropped by normalization (`_parse_video_item` returns `None`), and the
rest of the batch is unaffected — the surrounding records still
normalize exactly as they would without the bad record. -/
theorem C3_malformed_duration_drops_record (parseDur : String → Option Nat)
    (tsValid : String → Bool) (bad : RawItem) (d : String) (l₁ l₂ : List RawItem)
    (hdur : bad.duration = some d) (hbad : parseDur d = none) :
    parse_video_item parseDur tsValid bad = none ∧
    fetch_video_batch parseDur tsValid (some (l₁ ++ bad :: l₂)) =
      fetch_video_batch parseDur tsValid (some l₁) ++
        fetch_video_batch parseDur tsValid (some l₂) := by
  have hnone : parse_video_item parseDur tsValid bad = none := by
    simp [parse_video_item, hdur, hbad]
  refine ⟨hnone, ?_⟩
  simp [fetch_video_batch, List.filterMap_append, List.filterMap_cons, hnone]

theorem C3_malformed_duration_drops_record_witness :
    parse_video_item parseISODuration isoTimestampValid badRawItem = none ∧
    fetch_video_batch parseISODuration isoTimestampValid
        (some ([goodRawItem] ++ badRawItem :: [])) =
      fetch_video_batch parseISODuration isoTimestampValid (some [goodRawItem]) ++
        fetch_video_batch parseISODuration isoTimestampValid (some []) :=
  C3_malformed_duration_drops_record parseISODuration isoTimestampValid badRawItem
    ("not a duration") [goodRawItem] [] rfl rfl

/-- C6 counterexample: a handler-raised exception is caught at the
boundary but surfaces as `Error executing tool '...'` text — not as text
of the form `Tool execution failed: ...`, so not *every* failure surfaces
in that form. -/
theorem C6_counterexample :
    call_tool true boomHandlers demoFmt ("search_videos") =
      [⟨"text", ("Error executing tool \x27search_videos\x27: boom")⟩] ∧
    strOccurs ("Tool execution failed")
      ("Error executing tool \x27search_videos\x27: boom") = false :=
  ⟨rfl, rfl⟩

/-- C6 (amended): no exception propagates past the tool-invocation
boundary — every call returns exactly one text content.  A structured
handler failure surfaces as `Tool execution failed: <message>`; a
handler-raised exception is caught and surfaces as the readable text
`Error executing tool '<name>': <error>` rather than a stack trace. -/
theorem C6_failure_boundary (handlers : String → HandlerOutcome)
    (fmt : String → ToolResult → String) (name : String) (r : ToolResult)
    (e : String) :
    (∀ ready : Bool, (call_tool ready handlers fmt name).length = 1) ∧
    (name ∈ youtube_tool_names → handlers name = HandlerOutcome.exc e →
      call_tool true handlers fmt name =
        [⟨"text", ("Error executing tool \x27") ++ name ++ ("\x27: ") ++ e⟩]) ∧
    (name ∈ youtube_tool_names → handlers name = HandlerOutcome.ok r →
      r.success = false →
      call_tool true handlers fmt name =
        [⟨"text", ("Tool execution failed: ") ++ (r.message.getD ("Unknown error"))⟩]) := by
  refine ⟨?_, ?_, ?_⟩
  · intro ready
    unfold call_tool
    by_cases hr : ready = false
    · rw [if_pos hr]
      rfl
    · rw [if_neg hr]
      by_cases hm : name ∈ youtube_tool_names
      · rw [if_pos hm]
        cases handlers name with
        | exc e => rfl
        | ok r =>
            by_cases hs : r.success = true
            · simp [hs]
            · simp [hs]
      · rw [if_neg hm]
        rfl
  · intro hm he
    unfold call_tool
    rw [if_neg (by simp), if_pos hm, he]
  · intro hm hok hs
    unfold call_tool
    rw [if_neg (by simp), if_pos hm, hok]
    simp [hs]

theorem C6_failure_boundary_witness :
    call_tool true boomHandlers demoFmt ("search_videos") =
      [⟨"text", ("Error executing tool \x27") ++ ("search_videos") ++ ("\x27: ") ++ ("boom")⟩] ∧
    call_tool true failHandlers demoFmt ("analyze_market") =
      [⟨"text", ("Tool execution failed: ") ++
        ((⟨false, some ("Failed to analyze market")⟩ : ToolResult).message.getD
          ("Unknown error"))⟩] :=
  ⟨(C6_failure_boundary boomHandlers demoFmt ("search_videos") ⟨false, none⟩
      ("boom")).2.1 (by decide) rfl,
   (C6_failure_boundary failHandlers demoFmt ("analyze_market")
      ⟨false, some ("Failed to analyze market")⟩ ("x")).2.2 (by decide) rfl rfl⟩

/-- C10: the market-analysis handler clamps the requested sample size to
100, but the service sends `maxResults = min(max_results, 50)` to the
provider; when the provider honors that bound (and returns at most one
detail record per requested id), at most 50 videos are fetched and
analyzed, whatever sample size was requested. -/
theorem C10_provider_caps_at_50 (parseDur : String → Option Nat)
    (tsValid : String → Bool) (pb : ProviderSearch) (args : MarketArgs)
    (req : Nat) (hreq : args.sample_size = some req)
    (hids : pb.searchIds.length ≤ apiMaxResults (marketSampleSize args))
    (hresp : ∀ b, ((pb.detailResp b).getD []).length ≤ b.length) :
    marketSampleSize args = min req 100 ∧
    apiMaxResults (marketSampleSize args) ≤ 50 ∧
    (market_call parseDur tsValid (FetchOutcome.ok pb) args).videosAnalyzed ≤ 50 := by
  have hcap : apiMaxResults (marketSampleSize args) ≤ 50 := Nat.min_le_right _ _
  refine ⟨by simp [marketSampleSize, hreq], hcap, ?_⟩
  have hb : (search_videos_list parseDur tsValid pb).length ≤ pb.searchIds.length :=
    get_video_details_length_le parseDur tsValid pb.detailResp pb.searchIds
      (le_trans hids hcap) hresp
  have hle : (search_videos_list parseDur tsValid pb).length ≤ 50 :=
    le_trans hb (le_trans hids hcap)
  by_cases hv : (search_videos_list parseDur tsValid pb).isEmpty = true
  · simp [market_call, hv, MarketCallResult.videosAnalyzed]
  · simp only [market_call, hv, Bool.false_eq_true, if_false,
      MarketCallResult.videosAnalyzed]
    exact hle

theorem C10_provider_caps_at_50_witness :
    marketSampleSize capArgs = min 75 100 ∧
    apiMaxResults (marketSampleSize capArgs) ≤ 50 ∧
    (market_call parseISODuration isoTimestampValid (FetchOutcome.ok capProvider)
        capArgs).videosAnalyzed ≤ 50 :=
  C10_provider_caps_at_50 parseISODuration isoTimestampValid capProvider capArgs
    75 rfl (by decide)
    (fun b => by simp [capProvider])
